import Mathlib

/-! Verification of the buffer-ownership transfer protocol and boundary
marshalling / error-mapping discipline of the voicevox_core C API layer
(crates/voicevox_core_c_api/src/lib.rs).

The embedding is a shallow one:

* A Rust `Vec<T>` is modelled by `RVec α`: its element list together with the
  capacity of its backing allocation.
* The process heap is modelled explicitly inside `CApiState`:
  `table` embeds the global `INTERNAL_BUFFER_VEC_LENGTH : HashMap<usize, usize>`
  (address of a leaked buffer to its element count) as an association list with
  unique keys, `mem` records the contents of every currently leaked buffer
  (address to leaked vector), and `cstrHeap` records the malloc-backed
  null-terminated buffers produced for audio-query JSON results.
* `size_of::<T>()` is passed explicitly as a `sz : Nat` argument, and the
  address a Rust allocation receives is passed explicitly as an `addr : Nat`
  argument (the allocator's choice); theorems that need allocator freshness
  state it as a hypothesis.
* A failed `assert!` or `expect` aborts the process; functions that can abort
  return `Option`, with `none` for the abort.
* Machine integers (`usize`) are modelled as `Nat`; no arithmetic in the
  modelled code can overflow a 64-bit `usize` for the inputs considered, and no
  claim is about overflow, so no explicit wrap-around is introduced.
-/

set_option maxHeartbeats 1000000

/-- A Rust `Vec<T>`: the elements together with the capacity of the backing
allocation (`cap` is the number of element slots the allocation holds). -/
structure RVec (α : Type) where
  data : List α
  cap : Nat
deriving Repr, DecidableEq

/-- Rust `Vec::shrink_to_fit`: drops the excess capacity so that the capacity
equals the logical length. -/
def RVec.shrink_to_fit {α : Type} (v : RVec α) : RVec α :=
  ⟨v.data, v.data.length⟩

/-- Association-list lookup with `Nat` keys; embeds `HashMap::get` /
key-membership tests on `INTERNAL_BUFFER_VEC_LENGTH` (the map never holds
duplicate keys in reachable states). -/
def lookupKey {β : Type} (k : Nat) : List (Nat × β) → Option β
  | [] => none
  | (a, b) :: t => if a = k then some b else lookupKey k t

/-- Association-list removal of the first entry with the given key; embeds
`HashMap::remove` on a map with unique keys. -/
def eraseKey {β : Type} (k : Nat) : List (Nat × β) → List (Nat × β)
  | [] => []
  | (a, b) :: t => if a = k then t else (a, b) :: eraseKey k t

/-- The mutable process-wide state the C API layer manipulates.

`table` is the global registry `INTERNAL_BUFFER_VEC_LENGTH` (leaked-buffer
address to element count); `mem` is the heap region holding the leaked
allocations themselves (address to leaked vector); `cstrHeap` holds the
malloc-backed C strings handed out by `voicevox_audio_query` (address to
bytes). -/
structure CApiState (α : Type) where
  table : List (Nat × Nat)
  mem : List (Nat × RVec α)
  cstrHeap : List (Nat × List Nat)
deriving Repr, DecidableEq

/-- Embeds `leak_vec_and_store_length<T>` (lib.rs lines 46-66).

`sz` is `size_of::<T>()`; `addr` is the address of the buffer being leaked
(chosen by the allocator when the vector was built; after `shrink_to_fit` the
allocation sits at `addr`).  The function asserts `size_of::<T>() >= 1`,
shrinks the vector to its logical length, leaks it, inserts
`addr -> len` into the registry and asserts the slot was not occupied.
`none` models the process abort of a failed `assert!`. -/
def leak_vec_and_store_length {α : Type} (sz addr : Nat) (s : CApiState α)
    (vec : RVec α) : Option (CApiState α × Nat × Nat) :=
  if 1 ≤ sz then
    let size := vec.data.length
    let leaked := vec.shrink_to_fit
    let not_occupied := (lookupKey addr s.table).isNone
    if not_occupied then
      some ({ s with
                table := (addr, size) :: s.table
                mem := (addr, leaked) :: s.mem },
            addr, size)
    else
      none
  else
    none

/-- Embeds `restore_vec<T>` (lib.rs lines 70-79).

Removes the `addr -> size` entry from the registry (`expect` aborts when it is
absent: `none`) and rebuilds the vector with `Vec::from_raw_parts(ptr, size,
size)`, i.e. reads `size` elements from the allocation at `addr`, which then
leaves the leaked region of the heap.  A registered address whose allocation
is not in `mem` is undefined behaviour in the source; the model also returns
`none` there, and theorems about reachable states supply the allocation. -/
def restore_vec {α : Type} (addr : Nat) (s : CApiState α) :
    Option (CApiState α × RVec α) :=
  match lookupKey addr s.table with
  | none => none
  | some size =>
    match lookupKey addr s.mem with
    | none => none
    | some v =>
      some ({ s with table := eraseKey addr s.table, mem := eraseKey addr s.mem },
            ⟨v.data.take size, size⟩)

/-- Embeds `voicevox_wav_free` (lib.rs lines 491-493): `drop(restore_vec(wav))`.
The reclaimed vector is dropped, freeing the allocation. -/
def voicevox_wav_free {α : Type} (addr : Nat) (s : CApiState α) :
    Option (CApiState α) :=
  (restore_vec addr s).map Prod.fst

/-- Embeds `voicevox_predict_duration_data_free` (lib.rs lines 228-230). -/
def voicevox_predict_duration_data_free {α : Type} (addr : Nat)
    (s : CApiState α) : Option (CApiState α) :=
  (restore_vec addr s).map Prod.fst

/-- Embeds `voicevox_predict_intonation_data_free` (lib.rs lines 292-294). -/
def voicevox_predict_intonation_data_free {α : Type} (addr : Nat)
    (s : CApiState α) : Option (CApiState α) :=
  (restore_vec addr s).map Prod.fst

/-- Embeds `voicevox_decode_data_free` (lib.rs lines 342-344). -/
def voicevox_decode_data_free {α : Type} (addr : Nat) (s : CApiState α) :
    Option (CApiState α) :=
  (restore_vec addr s).map Prod.fst

/-- Embeds `voicevox_audio_query_json_free` (lib.rs lines 481-483):
`libc::free(audio_query_json)` releases the malloc-backed C string; the
registry is never consulted or modified. -/
def voicevox_audio_query_json_free {α : Type} (addr : Nat) (s : CApiState α) :
    CApiState α :=
  { s with cstrHeap := eraseKey addr s.cstrHeap }

theorem lookupKey_cons_self {β : Type} (k : Nat) (b : β) (t : List (Nat × β)) :
    lookupKey k ((k, b) :: t) = some b := by
  simp [lookupKey]

theorem eraseKey_cons_self {β : Type} (k : Nat) (b : β) (t : List (Nat × β)) :
    eraseKey k ((k, b) :: t) = t := by
  simp [eraseKey]

theorem lookupKey_eraseKey_ne {β : Type} (k b : Nat) (t : List (Nat × β))
    (hne : b ≠ k) : lookupKey b (eraseKey k t) = lookupKey b t := by
  induction t with
  | nil => simp [eraseKey]
  | cons e t ih =>
    obtain ⟨a, v⟩ := e
    by_cases hak : a = k
    · subst hak
      have hab : a ≠ b := fun h => hne h.symm
      simp [eraseKey, lookupKey, hab]
    · by_cases hab : a = b
      · subst hab
        simp [eraseKey, hak, lookupKey]
      · simp [eraseKey, hak, lookupKey, hab, ih]

/-- Continuation byte test for UTF-8 validation: `0x80 ≤ b ≤ 0xBF`. -/
def isCont (b : Nat) : Bool :=
  0x80 ≤ b && b ≤ 0xBF

/-- Validity of a byte sequence as UTF-8, as checked by Rust's
`str::from_utf8` / `CStr::to_str` (standard UTF-8: no overlong forms, no
surrogates, code points at most `0x10FFFF`).  The text argument of an entry
point is the byte content of the null-terminated C string, exclusive of the
terminator. -/
def utf8Valid : List Nat → Bool
  | [] => true
  | b :: rest =>
    if b ≤ 0x7F then utf8Valid rest
    else if b < 0xC2 then false
    else if b ≤ 0xDF then
      match rest with
      | c1 :: rest2 => isCont c1 && utf8Valid rest2
      | [] => false
    else if b ≤ 0xEF then
      match rest with
      | c1 :: c2 :: rest3 =>
        (if b = 0xE0 then decide (0xA0 ≤ c1 ∧ c1 ≤ 0xBF)
         else if b = 0xED then decide (0x80 ≤ c1 ∧ c1 ≤ 0x9F)
         else isCont c1) && isCont c2 && utf8Valid rest3
      | _ => false
    else if b ≤ 0xF4 then
      match rest with
      | c1 :: c2 :: c3 :: rest4 =>
        (if b = 0xF0 then decide (0x90 ≤ c1 ∧ c1 ≤ 0xBF)
         else if b = 0xF4 then decide (0x80 ≤ c1 ∧ c1 ≤ 0x8F)
         else isCont c1) && isCont c2 && isCont c3 && utf8Valid rest4
      | _ => false
    else false

/-- Modelled from the spec: the internal error taxonomy of the engine crate
(`voicevox_core::Error`), whose source is not under this crate.  The variants
are the ones exercised by the unit tests at lib.rs lines 512-535 plus
`UncategorizedError`, which stands for the spec's "unrecognized/future error
variants must fail closed". -/
inductive VoicevoxCoreError
  | NotLoadedOpenjtalkDict
  | LoadModel
  | GetSupportedDevices
  | UncategorizedError
deriving Repr, DecidableEq

/-- Modelled from the spec: `helpers::CApiError` (helpers.rs is not among the
sources).  `RustApi` wraps an engine-crate error; `InvalidUtf8Input` is the
invalid-input-encoding condition; `InvalidAudioQuery` is the
invalid-serialized-query condition. -/
inductive CApiError
  | RustApi (e : VoicevoxCoreError)
  | InvalidUtf8Input
  | InvalidAudioQuery
deriving Repr, DecidableEq

/-- Modelled from the spec: `voicevox_core::result_code::VoicevoxResultCode`
(re-exported at lib.rs line 88), the closed result-code enumeration: one
success variant and one variant per internal error category, including a
dedicated unknown-error code. -/
inductive VoicevoxResultCode
  | VOICEVOX_RESULT_OK
  | VOICEVOX_RESULT_NOT_LOADED_OPENJTALK_DICT_ERROR
  | VOICEVOX_RESULT_LOAD_MODEL_ERROR
  | VOICEVOX_RESULT_GET_SUPPORTED_DEVICES_ERROR
  | VOICEVOX_RESULT_INVALID_UTF8_INPUT_ERROR
  | VOICEVOX_RESULT_INVALID_AUDIO_QUERY_ERROR
  | VOICEVOX_RESULT_UNKNOWN_ERROR
deriving Repr, DecidableEq

/-- Modelled from the spec: `helpers::into_result_code_with_error` (helpers.rs
is not among the sources).  Total over `Except CApiError Unit`: `Ok` maps to
the success code, every error variant to exactly one non-success code, and the
uncategorized variant fails closed to the unknown-error code.  The four
mappings exercised by the unit tests at lib.rs lines 512-535 are reproduced
exactly. -/
def into_result_code_with_error : Except CApiError Unit → VoicevoxResultCode
  | .ok _ => .VOICEVOX_RESULT_OK
  | .error (.RustApi .NotLoadedOpenjtalkDict) =>
      .VOICEVOX_RESULT_NOT_LOADED_OPENJTALK_DICT_ERROR
  | .error (.RustApi .LoadModel) => .VOICEVOX_RESULT_LOAD_MODEL_ERROR
  | .error (.RustApi .GetSupportedDevices) =>
      .VOICEVOX_RESULT_GET_SUPPORTED_DEVICES_ERROR
  | .error (.RustApi .UncategorizedError) => .VOICEVOX_RESULT_UNKNOWN_ERROR
  | .error .InvalidUtf8Input => .VOICEVOX_RESULT_INVALID_UTF8_INPUT_ERROR
  | .error .InvalidAudioQuery => .VOICEVOX_RESULT_INVALID_AUDIO_QUERY_ERROR

/-- Modelled from the spec: `voicevox_core::error_result_to_message` (called at
lib.rs lines 499-503; its source is not under this crate).  Total over the
result-code enumeration; each message is static ASCII text with a terminating
NUL byte and no interior NUL, matching the `&'static CStr` of the source. -/
def error_result_to_message : VoicevoxResultCode → List Nat
  | .VOICEVOX_RESULT_OK => [79, 75, 0]
  | .VOICEVOX_RESULT_NOT_LOADED_OPENJTALK_DICT_ERROR =>
      [111, 112, 101, 110, 106, 116, 97, 108, 107, 32, 100, 105, 99, 116, 32,
       110, 111, 116, 32, 108, 111, 97, 100, 101, 100, 0]
  | .VOICEVOX_RESULT_LOAD_MODEL_ERROR =>
      [109, 111, 100, 101, 108, 32, 108, 111, 97, 100, 32, 102, 97, 105, 108,
       101, 100, 0]
  | .VOICEVOX_RESULT_GET_SUPPORTED_DEVICES_ERROR =>
      [103, 101, 116, 32, 115, 117, 112, 112, 111, 114, 116, 101, 100, 32,
       100, 101, 118, 105, 99, 101, 115, 32, 102, 97, 105, 108, 101, 100, 0]
  | .VOICEVOX_RESULT_INVALID_UTF8_INPUT_ERROR =>
      [105, 110, 118, 97, 108, 105, 100, 32, 117, 116, 102, 56, 32, 105, 110,
       112, 117, 116, 0]
  | .VOICEVOX_RESULT_INVALID_AUDIO_QUERY_ERROR =>
      [105, 110, 118, 97, 108, 105, 100, 32, 97, 117, 100, 105, 111, 32, 113,
       117, 101, 114, 121, 0]
  | .VOICEVOX_RESULT_UNKNOWN_ERROR =>
      [117, 110, 107, 110, 111, 119, 110, 32, 101, 114, 114, 111, 114, 0]

/-- Modelled from the spec: `helpers::ensure_utf8` (helpers.rs is not among the
sources; called at lib.rs line 466): a text argument must decode as valid UTF-8
or the call fails with the invalid-input-encoding condition before reaching the
engine. -/
def ensure_utf8 (bytes : List Nat) : Except CApiError (List Nat) :=
  if utf8Valid bytes then .ok bytes else .error .InvalidUtf8Input

/-- Embeds `VoicevoxAudioQueryOptions` (lib.rs lines 347-351). -/
structure VoicevoxAudioQueryOptions where
  kana : Bool
deriving Repr, DecidableEq

/-- Embeds `VoicevoxSynthesisOptions` (lib.rs lines 386-390). -/
structure VoicevoxSynthesisOptions where
  enable_interrogative_upspeak : Bool
deriving Repr, DecidableEq

/-- Embeds `VoicevoxTtsOptions` (lib.rs lines 431-437). -/
structure VoicevoxTtsOptions where
  kana : Bool
  enable_interrogative_upspeak : Bool
deriving Repr, DecidableEq

/-- Embeds `voicevox_predict_duration` (lib.rs lines 200-220).  The engine
operation `Internal::predict_duration`, reached under the engine guard, is an
external collaborator passed as `predict_duration`; `phoneme_vector` models the
slice `from_raw_parts_mut(phoneme_vector, length)`.  `sz` and `addr` are the
element size (`size_of::<f32>()`) and the allocator-chosen leaked-buffer
address for `leak_vec_and_store_length`.  The value is `none` on process abort
(failed registry assertion); otherwise the result code, the final state, and
the output slots as `some (output_..._data_length, output_..._data)` when
written, `none` when the call failed before writing them. -/
def voicevox_predict_duration {α : Type}
    (predict_duration : List Int → Nat → Except VoicevoxCoreError (RVec α))
    (sz addr : Nat) (s : CApiState α)
    (phoneme_vector : List Int) (speaker_id : Nat) :
    Option (VoicevoxResultCode × CApiState α × Option (Nat × Nat)) :=
  match predict_duration phoneme_vector speaker_id with
  | .error e => some (into_result_code_with_error (.error (.RustApi e)), s, none)
  | .ok output_vec =>
    match leak_vec_and_store_length sz addr s output_vec with
    | none => none
    | some (s', ptr, size) =>
      some (.VOICEVOX_RESULT_OK, s', some (size, ptr))

/-- Embeds `voicevox_predict_intonation` (lib.rs lines 254-284); same
conventions as `voicevox_predict_duration`, with the six parallel input
slices passed through to the engine operation. -/
def voicevox_predict_intonation {α : Type}
    (predict_intonation : Nat → List Int → List Int → List Int → List Int →
      List Int → List Int → Nat → Except VoicevoxCoreError (RVec α))
    (sz addr : Nat) (s : CApiState α) (length : Nat)
    (vowel_phoneme_vector consonant_phoneme_vector start_accent_vector
      end_accent_vector start_accent_phrase_vector
      end_accent_phrase_vector : List Int)
    (speaker_id : Nat) :
    Option (VoicevoxResultCode × CApiState α × Option (Nat × Nat)) :=
  match predict_intonation length vowel_phoneme_vector consonant_phoneme_vector
      start_accent_vector end_accent_vector start_accent_phrase_vector
      end_accent_phrase_vector speaker_id with
  | .error e => some (into_result_code_with_error (.error (.RustApi e)), s, none)
  | .ok output_vec =>
    match leak_vec_and_store_length sz addr s output_vec with
    | none => none
    | some (s', ptr, len) =>
      some (.VOICEVOX_RESULT_OK, s', some (len, ptr))

/-- Embeds `voicevox_decode` (lib.rs lines 311-334); same conventions as
`voicevox_predict_duration`.  `φ` is the opaque 32-bit float type of the input
slices (`f0` of length `length`, `phoneme_vector` of length
`phoneme_size * length`). -/
def voicevox_decode {α φ : Type}
    (decode : Nat → Nat → List φ → List φ → Nat →
      Except VoicevoxCoreError (RVec α))
    (sz addr : Nat) (s : CApiState α) (length phoneme_size : Nat)
    (f0 phoneme_vector : List φ) (speaker_id : Nat) :
    Option (VoicevoxResultCode × CApiState α × Option (Nat × Nat)) :=
  match decode length phoneme_size f0 phoneme_vector speaker_id with
  | .error e => some (into_result_code_with_error (.error (.RustApi e)), s, none)
  | .ok output_vec =>
    match leak_vec_and_store_length sz addr s output_vec with
    | none => none
    | some (s', ptr, len) =>
      some (.VOICEVOX_RESULT_OK, s', some (len, ptr))

/-- Embeds `voicevox_audio_query` (lib.rs lines 371-383).  The helper
`create_audio_query` and the writer `write_json_to_ptr` live in the missing
helpers.rs and are modelled from the spec: the text must decode as valid UTF-8
or the call fails before reaching the engine, and on success the serialized
query is placed in a freshly malloc-ed null-terminated buffer (at the
allocator-chosen address `caddr`) whose address is written to the output slot
`output_audio_query_json`; this buffer is NOT registered in the registry
table (release is by plain deallocation). -/
def voicevox_audio_query {α : Type}
    (audio_query_fn : List Nat → Nat → VoicevoxAudioQueryOptions →
      Except VoicevoxCoreError (List Nat))
    (caddr : Nat) (s : CApiState α) (text : List Nat) (speaker_id : Nat)
    (options : VoicevoxAudioQueryOptions) :
    VoicevoxResultCode × CApiState α × Option Nat :=
  match ensure_utf8 text with
  | .error e => (into_result_code_with_error (.error e), s, none)
  | .ok t =>
    match audio_query_fn t speaker_id options with
    | .error e => (into_result_code_with_error (.error (.RustApi e)), s, none)
    | .ok json =>
      (.VOICEVOX_RESULT_OK,
       { s with cstrHeap := (caddr, json ++ [0]) :: s.cstrHeap },
       some caddr)

/-- Embeds `voicevox_synthesis` (lib.rs lines 411-428).  The UTF-8 gate
`CStr::to_str().map_err(|_| CApiError::InvalidUtf8Input)` is in lib.rs itself;
the JSON parse (`serde_json::from_str`, an external collaborator) is the
parameter `from_str` into the opaque parsed-query type `β`, a parse failure
being `CApiError::InvalidAudioQuery`; the engine operation is `synthesis`.
`write_wav_to_ptr` lives in the missing helpers.rs and is modelled from the
spec: the wav bytes are registry-tracked (registered through
`leak_vec_and_store_length`, to be freed via registry reclamation), and the
pointer and length are written to the output slots. -/
def voicevox_synthesis {α β : Type}
    (from_str : List Nat → Option β)
    (synthesis : β → Nat → VoicevoxSynthesisOptions →
      Except VoicevoxCoreError (RVec α))
    (sz waddr : Nat) (s : CApiState α)
    (audio_query_json : List Nat) (speaker_id : Nat)
    (options : VoicevoxSynthesisOptions) :
    Option (VoicevoxResultCode × CApiState α × Option (Nat × Nat)) :=
  if utf8Valid audio_query_json then
    match from_str audio_query_json with
    | none => some (into_result_code_with_error (.error .InvalidAudioQuery), s, none)
    | some audio_query =>
      match synthesis audio_query speaker_id options with
      | .error e =>
        some (into_result_code_with_error (.error (.RustApi e)), s, none)
      | .ok wav =>
        match leak_vec_and_store_length sz waddr s wav with
        | none => none
        | some (s', ptr, size) =>
          some (.VOICEVOX_RESULT_OK, s', some (size, ptr))
  else
    some (into_result_code_with_error (.error .InvalidUtf8Input), s, none)

/-- Embeds `voicevox_tts` (lib.rs lines 458-473): UTF-8 gate via
`ensure_utf8`, engine call under the guard, then registration of the wav bytes
and writing of the output slots. -/
def voicevox_tts {α : Type}
    (tts : List Nat → Nat → VoicevoxTtsOptions →
      Except VoicevoxCoreError (RVec α))
    (sz waddr : Nat) (s : CApiState α)
    (text : List Nat) (speaker_id : Nat) (options : VoicevoxTtsOptions) :
    Option (VoicevoxResultCode × CApiState α × Option (Nat × Nat)) :=
  match ensure_utf8 text with
  | .error e => some (into_result_code_with_error (.error e), s, none)
  | .ok t =>
    match tts t speaker_id options with
    | .error e => some (into_result_code_with_error (.error (.RustApi e)), s, none)
    | .ok output =>
      match leak_vec_and_store_length sz waddr s output with
      | none => none
      | some (s', ptr, size) =>
        some (.VOICEVOX_RESULT_OK, s', some (size, ptr))

/-- Embeds `VoicevoxAccelerationMode` (lib.rs lines 94-101). -/
inductive VoicevoxAccelerationMode
  | VOICEVOX_ACCELERATION_MODE_AUTO
  | VOICEVOX_ACCELERATION_MODE_CPU
  | VOICEVOX_ACCELERATION_MODE_GPU
deriving Repr, DecidableEq

/-- Embeds `VoicevoxInitializeOptions` (lib.rs lines 104-115); the dictionary
directory path is the byte content of the null-terminated string. -/
structure VoicevoxInitializeOptions where
  acceleration_mode : VoicevoxAccelerationMode
  cpu_num_threads : Nat
  load_all_models : Bool
  open_jtalk_dict_dir : List Nat
deriving Repr, DecidableEq

/-- Embeds `voicevox_initialize` (lib.rs lines 127-134).  The fallible options
conversion (`try_into_options`, from the missing helpers.rs) and the engine
initialization are external collaborators passed as parameters; every outcome
is funnelled through `into_result_code_with_error`, so the function always
returns a `VoicevoxResultCode` and no internal error value crosses the
boundary.  `ι` is the internal validated-options type. -/
def voicevox_initialize {ι : Type}
    (try_into_options : VoicevoxInitializeOptions → Except CApiError ι)
    (engine_init : ι → Except VoicevoxCoreError Unit)
    (options : VoicevoxInitializeOptions) : VoicevoxResultCode :=
  into_result_code_with_error
    (match try_into_options options with
     | .error e => .error e
     | .ok o =>
       match engine_init o with
       | .error e => .error (.RustApi e)
       | .ok _ => .ok ())

/-- Lock and registry events emitted by an entry point, in program order.
`acquireEngine` / `releaseEngine` delimit the critical section of the
`MutexGuard` obtained by `lock_internal()` on the global `INTERNAL` engine
mutex; `acquireRegistry` / `releaseRegistry` delimit the guard of the
`INTERNAL_BUFFER_VEC_LENGTH` mutex; `engineCall` is the engine operation run
under the engine guard, and `registryInsert` is the `HashMap::insert` run
under the registry guard. -/
inductive LockEvent
  | acquireEngine
  | engineCall
  | releaseEngine
  | acquireRegistry
  | registryInsert
  | releaseRegistry
deriving Repr, DecidableEq

/-- Lock events of `leak_vec_and_store_length` (lib.rs lines 57-63): the
registry mutex is locked, the entry inserted, and the guard — a temporary of
the `insert` statement — dropped when that statement finishes. -/
def leak_events : List LockEvent :=
  [.acquireRegistry, .registryInsert, .releaseRegistry]

/-- Lock events of the engine call in an entry point of the shape
`let out = lock_internal().op(..)?;` (e.g. lib.rs lines 209-212, 467): the
guard returned by `lock_internal()` is a temporary of that statement, so Rust
drops it when the statement finishes — on the success path as well as on the
`?` early return — before any following statement runs. -/
def engine_events : List LockEvent :=
  [.acquireEngine, .engineCall, .releaseEngine]

/-- Lock-event trace of `voicevox_predict_duration` (lib.rs lines 200-220):
the engine call, then — only on engine success — the registration, which runs
after the engine guard has been dropped. -/
def voicevox_predict_duration_trace (engine_ok : Bool) : List LockEvent :=
  engine_events ++ (if engine_ok then leak_events else [])

/-- Lock-event trace of `voicevox_predict_intonation` (lib.rs lines 254-284). -/
def voicevox_predict_intonation_trace (engine_ok : Bool) : List LockEvent :=
  engine_events ++ (if engine_ok then leak_events else [])

/-- Lock-event trace of `voicevox_decode` (lib.rs lines 311-334). -/
def voicevox_decode_trace (engine_ok : Bool) : List LockEvent :=
  engine_events ++ (if engine_ok then leak_events else [])

/-- Lock-event trace of `voicevox_synthesis` (lib.rs lines 411-428): the UTF-8
gate and the JSON parse run before any lock is taken; the wav registration
runs after the engine-guard temporary of the synthesis statement is dropped. -/
def voicevox_synthesis_trace (utf8_ok parse_ok engine_ok : Bool) :
    List LockEvent :=
  if utf8_ok && parse_ok then
    engine_events ++ (if engine_ok then leak_events else [])
  else
    []

/-- Lock-event trace of `voicevox_tts` (lib.rs lines 458-473): the UTF-8 gate
runs before any lock is taken; the wav registration runs after the
engine-guard temporary of the tts statement is dropped. -/
def voicevox_tts_trace (utf8_ok engine_ok : Bool) : List LockEvent :=
  if utf8_ok then
    engine_events ++ (if engine_ok then leak_events else [])
  else
    []

/-- Whether the lock delimited by the events `acq` / `rel` is held just before
position `i` of the trace: strictly more acquisitions than releases among the
first `i` events. -/
def heldAt (acq rel : LockEvent) (tr : List LockEvent) (i : Nat) : Bool :=
  (tr.take i).count rel < (tr.take i).count acq

/-- Whether some `registryInsert` of the trace happens while the engine guard
is held. -/
def insertsWhileEngineHeld (tr : List LockEvent) : Bool :=
  (List.range tr.length).any fun i =>
    tr.getD i .engineCall == .registryInsert &&
      heldAt .acquireEngine .releaseEngine tr i

/-- Whether some `acquireEngine` of the trace happens while the registry lock
is held (the forbidden reverse acquisition order). -/
def acquiresEngineWhileRegistryHeld (tr : List LockEvent) : Bool :=
  (List.range tr.length).any fun i =>
    tr.getD i .engineCall == .acquireEngine &&
      heldAt .acquireRegistry .releaseRegistry tr i

/-- Whether every engine-guard acquisition of the trace precedes every
registry-lock acquisition (engine guard first, then registry lock). -/
def engineAcquiredFirst (tr : List LockEvent) : Bool :=
  (List.range tr.length).all fun i =>
    (List.range tr.length).all fun j =>
      !(tr.getD i .engineCall == .acquireRegistry &&
        tr.getD j .engineCall == .acquireEngine && decide (i ≤ j))

theorem lookupKey_eq_none_of_not_mem {β : Type} (k : Nat) (t : List (Nat × β))
    (h : k ∉ t.map Prod.fst) : lookupKey k t = none := by
  induction t with
  | nil => rfl
  | cons e t ih =>
    obtain ⟨a, v⟩ := e
    simp only [List.map_cons, List.mem_cons] at h
    push_neg at h
    have hak : a ≠ k := fun hh => h.1 hh.symm
    simp [lookupKey, hak, ih h.2]

theorem lookupKey_eraseKey_self {β : Type} (k : Nat) (t : List (Nat × β))
    (h : (t.map Prod.fst).Nodup) : lookupKey k (eraseKey k t) = none := by
  induction t with
  | nil => rfl
  | cons e t ih =>
    obtain ⟨a, v⟩ := e
    simp only [List.map_cons, List.nodup_cons] at h
    by_cases hak : a = k
    · subst hak
      simp [eraseKey, lookupKey_eq_none_of_not_mem a t h.1]
    · simp [eraseKey, hak, lookupKey, ih h.2]

theorem leak_some_elim {α : Type} (sz addr : Nat) (s : CApiState α)
    (vec : RVec α) (s' : CApiState α) (p len : Nat)
    (h : leak_vec_and_store_length sz addr s vec = some (s', p, len)) :
    1 ≤ sz ∧ lookupKey addr s.table = none ∧ p = addr ∧
      len = vec.data.length ∧
      s' = { s with table := (addr, vec.data.length) :: s.table,
                    mem := (addr, vec.shrink_to_fit) :: s.mem } := by
  by_cases hsz : 1 ≤ sz
  · by_cases hocc : lookupKey addr s.table = none
    · simp [leak_vec_and_store_length, hsz, hocc] at h
      exact ⟨hsz, hocc, h.2.1.symm, h.2.2.symm, h.1.symm⟩
    · simp [leak_vec_and_store_length, hsz,
        Option.isNone_iff_eq_none, hocc] at h
  · simp [leak_vec_and_store_length, hsz] at h

/-- C1: round-trip law — for every buffer accepted by registration (element
size at least 1) and an allocator-fresh address, reclaiming the address
returned by `leak_vec_and_store_length` via `restore_vec` reconstructs a
buffer with exactly the original length and contents. -/
theorem register_reclaim_roundtrip {α : Type} (sz addr : Nat)
    (s : CApiState α) (vec : RVec α) (hsz : 1 ≤ sz)
    (hfresh : lookupKey addr s.table = none) :
    ∃ s₁, leak_vec_and_store_length sz addr s vec =
        some (s₁, addr, vec.data.length) ∧
      ∃ s₂ w, restore_vec addr s₁ = some (s₂, w) ∧
        w.data = vec.data ∧ w.data.length = vec.data.length := by
  refine ⟨{ s with table := (addr, vec.data.length) :: s.table,
                   mem := (addr, vec.shrink_to_fit) :: s.mem }, ?_, ?_⟩
  · simp [leak_vec_and_store_length, hsz, hfresh]
  · refine ⟨{ s with
        table := eraseKey addr ((addr, vec.data.length) :: s.table),
        mem := eraseKey addr ((addr, vec.shrink_to_fit) :: s.mem) },
      ⟨vec.data.take vec.data.length, vec.data.length⟩, ?_, ?_, ?_⟩
    · simp [restore_vec, lookupKey, RVec.shrink_to_fit]
    · simp
    · simp

/-- C1 witness: the round trip at a concrete buffer. -/
theorem register_reclaim_roundtrip_witness :
    (1 ≤ 1 ∧ lookupKey 100 (([] : List (Nat × Nat))) = none) ∧
      ∃ s₁, leak_vec_and_store_length 1 100
          (⟨[], [], []⟩ : CApiState Nat) ⟨[7, 8], 4⟩ = some (s₁, 100, 2) ∧
        ∃ s₂ w, restore_vec 100 s₁ = some (s₂, w) ∧
          w.data = [7, 8] ∧ w.data.length = 2 :=
  ⟨⟨by decide, by decide⟩,
    register_reclaim_roundtrip 1 100 ⟨[], [], []⟩ ⟨[7, 8], 4⟩ (by decide)
      (by decide)⟩

/-- C2: register postcondition — a successful `leak_vec_and_store_length`
returns the buffer's address and its logical element count, shrinks the leaked
vector to exactly its logical length (capacity equals length), and extends the
registry table by exactly the one new entry `addr -> length` (the address was
unmapped before, is mapped after, and every other address keeps its mapping). -/
theorem register_postcondition {α : Type} (sz addr : Nat) (s : CApiState α)
    (vec : RVec α) (s' : CApiState α) (p len : Nat)
    (h : leak_vec_and_store_length sz addr s vec = some (s', p, len)) :
    p = addr ∧ len = vec.data.length ∧
      lookupKey addr s.table = none ∧
      s'.table = (addr, vec.data.length) :: s.table ∧
      lookupKey addr s'.table = some vec.data.length ∧
      (∀ b, b ≠ addr → lookupKey b s'.table = lookupKey b s.table) ∧
      lookupKey addr s'.mem = some vec.shrink_to_fit ∧
      vec.shrink_to_fit.data = vec.data ∧
      vec.shrink_to_fit.cap = vec.data.length := by
  obtain ⟨hsz, hocc, hp, hlen, hs'⟩ := leak_some_elim sz addr s vec s' p len h
  subst hs'
  refine ⟨hp, hlen, hocc, rfl, by simp [lookupKey], ?_, by simp [lookupKey],
    rfl, rfl⟩
  intro b hb
  have hab : addr ≠ b := fun hh => hb hh.symm
  simp [lookupKey, hab]

/-- C2 witness: the postcondition at a concrete buffer. -/
theorem register_postcondition_witness :
    leak_vec_and_store_length 1 100 (⟨[], [], []⟩ : CApiState Nat) ⟨[7, 8], 4⟩ =
        some (⟨[(100, 2)], [(100, ⟨[7, 8], 2⟩)], []⟩, 100, 2) ∧
      (100 : Nat) = 100 ∧ (2 : Nat) = 2 ∧
      lookupKey 100 ([] : List (Nat × Nat)) = none ∧
      ([(100, 2)] : List (Nat × Nat)) = [(100, 2)] ∧
      lookupKey 100 ([(100, 2)] : List (Nat × Nat)) = some 2 ∧
      (∀ b, b ≠ 100 → lookupKey b ([(100, 2)] : List (Nat × Nat)) =
        lookupKey b ([] : List (Nat × Nat))) ∧
      lookupKey 100 ([(100, (⟨[7, 8], 2⟩ : RVec Nat))]) =
        some (⟨[7, 8], 2⟩ : RVec Nat) ∧
      (RVec.shrink_to_fit (⟨[7, 8], 4⟩ : RVec Nat)).data = [7, 8] ∧
      (RVec.shrink_to_fit (⟨[7, 8], 4⟩ : RVec Nat)).cap = 2 := by
  have h : leak_vec_and_store_length 1 100 (⟨[], [], []⟩ : CApiState Nat)
      ⟨[7, 8], 4⟩ = some (⟨[(100, 2)], [(100, ⟨[7, 8], 2⟩)], []⟩, 100, 2) := by
    decide
  have hpost := register_postcondition 1 100 ⟨[], [], []⟩ ⟨[7, 8], 4⟩
    ⟨[(100, 2)], [(100, ⟨[7, 8], 2⟩)], []⟩ 100 2 h
  exact ⟨h, hpost.1, hpost.2.1, hpost.2.2.1, hpost.2.2.2.1, hpost.2.2.2.2.1,
    hpost.2.2.2.2.2.1, hpost.2.2.2.2.2.2.1, hpost.2.2.2.2.2.2.2.1,
    hpost.2.2.2.2.2.2.2.2⟩

/-- C3: zero-sized rejection — `leak_vec_and_store_length` aborts the process
(model: `none`, from the failed `assert!`, not a recoverable error code) on
element size 0 whatever the buffer, state and address, and conversely every
successful registration had element size at least 1, so no address with
zero-sized elements ever enters the registry table. -/
theorem zero_sized_rejection {α : Type} :
    (∀ (addr : Nat) (s : CApiState α) (vec : RVec α),
        leak_vec_and_store_length 0 addr s vec = none) ∧
    (∀ (sz addr : Nat) (s : CApiState α) (vec : RVec α)
        (r : CApiState α × Nat × Nat),
        leak_vec_and_store_length sz addr s vec = some r → 1 ≤ sz) := by
  constructor
  · intro addr s vec
    simp [leak_vec_and_store_length]
  · intro sz addr s vec r h
    by_contra hsz
    simp [leak_vec_and_store_length, hsz] at h

/-- C3 witness: rejection and the size bound at concrete inputs. -/
theorem zero_sized_rejection_witness :
    leak_vec_and_store_length 0 100 (⟨[], [], []⟩ : CApiState Nat)
        ⟨[7], 1⟩ = none ∧
      (1 : Nat) ≤ 1 :=
  ⟨(zero_sized_rejection (α := Nat)).1 100 ⟨[], [], []⟩ ⟨[7], 1⟩,
    (zero_sized_rejection (α := Nat)).2 1 100 ⟨[], [], []⟩ ⟨[7], 1⟩
      (⟨[(100, 1)], [(100, ⟨[7], 1⟩)], []⟩, 100, 1) (by decide)⟩

/-- C4: table integrity — two consecutive successful registrations never
return the same address (the second can only succeed at an address unmapped in
the table the first one produced), and an insertion whose address is already
mapped in the table is fatal (`none`, the failed `assert!`), never a silent
merge. -/
theorem table_integrity {α : Type} :
    (∀ (sz₁ sz₂ a₁ a₂ : Nat) (s s₁ s₂ : CApiState α) (v₁ v₂ : RVec α)
        (p₁ p₂ l₁ l₂ : Nat),
        leak_vec_and_store_length sz₁ a₁ s v₁ = some (s₁, p₁, l₁) →
        leak_vec_and_store_length sz₂ a₂ s₁ v₂ = some (s₂, p₂, l₂) →
        p₁ ≠ p₂) ∧
    (∀ (sz addr : Nat) (s : CApiState α) (vec : RVec α),
        (lookupKey addr s.table).isSome = true →
        leak_vec_and_store_length sz addr s vec = none) := by
  constructor
  · intro sz₁ sz₂ a₁ a₂ s s₁ s₂ v₁ v₂ p₁ p₂ l₁ l₂ h₁ h₂
    obtain ⟨-, -, hp₁, -, hs₁⟩ := leak_some_elim sz₁ a₁ s v₁ s₁ p₁ l₁ h₁
    obtain ⟨-, hocc₂, hp₂, -, -⟩ := leak_some_elim sz₂ a₂ s₁ v₂ s₂ p₂ l₂ h₂
    subst hp₁; subst hp₂; subst hs₁
    intro hEq
    subst hEq
    simp [lookupKey] at hocc₂
  · intro sz addr s vec hocc
    by_cases hsz : 1 ≤ sz
    · rw [Option.isSome_iff_exists] at hocc
      obtain ⟨v, hv⟩ := hocc
      simp [leak_vec_and_store_length, hsz, hv]
    · simp [leak_vec_and_store_length, hsz]

/-- C4 witness: distinct addresses for two concrete registrations, and a fatal
duplicate insertion at a concrete occupied address. -/
theorem table_integrity_witness :
    (100 : Nat) ≠ 200 ∧
      leak_vec_and_store_length 1 100
        (⟨[(100, 1)], [(100, ⟨[7], 1⟩)], []⟩ : CApiState Nat) ⟨[9], 1⟩ =
        none := by
  constructor
  · exact (table_integrity (α := Nat)).1 1 1 100 200 ⟨[], [], []⟩
      ⟨[(100, 1)], [(100, ⟨[7], 1⟩)], []⟩
      ⟨[(200, 1), (100, 1)], [(200, ⟨[9], 1⟩), (100, ⟨[7], 1⟩)], []⟩
      ⟨[7], 1⟩ ⟨[9], 1⟩ 100 200 1 1 (by decide) (by decide)
  · exact (table_integrity (α := Nat)).2 1 100
      ⟨[(100, 1)], [(100, ⟨[7], 1⟩)], []⟩ ⟨[9], 1⟩ (by decide)

/-- C5: reclaim behaviour — for an address mapped in the registry table (and
holding a leaked allocation, as every registered address does in reachable
states) `restore_vec` removes exactly that entry (the address becomes unmapped
when the table keys are duplicate-free, and every other address keeps its
mapping) and reconstructs the allocation from the raw address and the recorded
length; for an address not in the table, `restore_vec` is fatal (`none`, the
failed `expect`), never a silent success. -/
theorem reclaim_behaviour {α : Type} :
    (∀ (addr size : Nat) (s : CApiState α) (v : RVec α),
        lookupKey addr s.table = some size →
        lookupKey addr s.mem = some v →
        restore_vec addr s =
          some ({ s with table := eraseKey addr s.table,
                         mem := eraseKey addr s.mem },
                ⟨v.data.take size, size⟩) ∧
        (∀ b, b ≠ addr →
          lookupKey b (eraseKey addr s.table) = lookupKey b s.table) ∧
        ((s.table.map Prod.fst).Nodup →
          lookupKey addr (eraseKey addr s.table) = none)) ∧
    (∀ (addr : Nat) (s : CApiState α),
        lookupKey addr s.table = none → restore_vec addr s = none) := by
  constructor
  · intro addr size s v ht hm
    refine ⟨by simp [restore_vec, ht, hm], ?_, ?_⟩
    · intro b hb
      exact lookupKey_eraseKey_ne addr b s.table hb
    · intro hnd
      exact lookupKey_eraseKey_self addr s.table hnd
  · intro addr s ht
    simp [restore_vec, ht]

/-- C5 witness: reclamation at a concrete registered address and the fatal
case at a concrete unregistered address. -/
theorem reclaim_behaviour_witness :
    (lookupKey 100 ([(100, 2)] : List (Nat × Nat)) = some 2 ∧
      restore_vec 100
        (⟨[(100, 2)], [(100, ⟨[7, 8], 2⟩)], []⟩ : CApiState Nat) =
        some (⟨[], [], []⟩, ⟨[7, 8], 2⟩)) ∧
      (lookupKey 100 ([] : List (Nat × Nat)) = none ∧
        restore_vec 100 (⟨[], [], []⟩ : CApiState Nat) = none) := by
  constructor
  · refine ⟨by decide, ?_⟩
    have h := ((reclaim_behaviour (α := Nat)).1 100 2
      ⟨[(100, 2)], [(100, ⟨[7, 8], 2⟩)], []⟩ ⟨[7, 8], 2⟩ (by decide)
      (by decide)).1
    simpa [eraseKey] using h
  · exact ⟨by decide, (reclaim_behaviour (α := Nat)).2 100 ⟨[], [], []⟩
      (by decide)⟩

/-- C6: UTF-8 gate — for any behaviour of the engine operation whatsoever, if
the text argument of `voicevox_tts` or the `audio_query_json` argument of
`voicevox_synthesis` does not decode as valid UTF-8 the call returns the
invalid-input-encoding result code, leaves the state untouched and writes no
output slot; since the result is the same constant for every engine function,
the engine is not invoked on invalid text. -/
theorem utf8_gate {α : Type} {β : Type} :
    (∀ (f : List Nat → Nat → VoicevoxTtsOptions →
          Except VoicevoxCoreError (RVec α))
        (sz waddr : Nat) (s : CApiState α) (text : List Nat)
        (speaker_id : Nat) (options : VoicevoxTtsOptions),
        utf8Valid text = false →
        voicevox_tts f sz waddr s text speaker_id options =
          some (.VOICEVOX_RESULT_INVALID_UTF8_INPUT_ERROR, s, none)) ∧
    (∀ (g : List Nat → Option β)
        (f : β → Nat → VoicevoxSynthesisOptions →
          Except VoicevoxCoreError (RVec α))
        (sz waddr : Nat) (s : CApiState α) (audio_query_json : List Nat)
        (speaker_id : Nat) (options : VoicevoxSynthesisOptions),
        utf8Valid audio_query_json = false →
        voicevox_synthesis g f sz waddr s audio_query_json speaker_id
            options =
          some (.VOICEVOX_RESULT_INVALID_UTF8_INPUT_ERROR, s, none)) := by
  constructor
  · intro f sz waddr s text speaker_id options h
    simp [voicevox_tts, ensure_utf8, h, into_result_code_with_error]
  · intro g f sz waddr s audio_query_json speaker_id options h
    simp [voicevox_synthesis, h, into_result_code_with_error]

/-- C6 witness: the invalid byte sequence `[0xFF]` is rejected by both entry
points at a concrete engine function and concrete arguments. -/
theorem utf8_gate_witness :
    utf8Valid [0xFF] = false ∧
      voicevox_tts (fun t n _ => .ok ⟨[n, t.length], 2⟩) 1 100
          (⟨[], [], []⟩ : CApiState Nat) [0xFF] 0 ⟨false, true⟩ =
        some (.VOICEVOX_RESULT_INVALID_UTF8_INPUT_ERROR, ⟨[], [], []⟩,
          none) ∧
      voicevox_synthesis (fun j => some j.length)
          (fun q n _ => .ok ⟨[q, n], 2⟩) 1 100
          (⟨[], [], []⟩ : CApiState Nat) [0xFF] 0 ⟨true⟩ =
        some (.VOICEVOX_RESULT_INVALID_UTF8_INPUT_ERROR, ⟨[], [], []⟩,
          none) :=
  ⟨by decide,
    (utf8_gate (α := Nat) (β := Nat)).1 (fun t n _ => .ok ⟨[n, t.length], 2⟩)
      1 100 ⟨[], [], []⟩ [0xFF] 0 ⟨false, true⟩ (by decide),
    (utf8_gate (α := Nat) (β := Nat)).2 (fun j => some j.length)
      (fun q n _ => .ok ⟨[q, n], 2⟩) 1 100 ⟨[], [], []⟩ [0xFF] 0 ⟨true⟩
      (by decide)⟩

/-- C7: total error mapping at the boundary — `into_result_code_with_error` is
total (a Lean function), sends success to the success code and every internal
error variant to a non-success code, sends the uncategorized variant to the
dedicated unknown-error code (fail closed, no panic); every outcome of an
entry point such as `voicevox_initialize` is funnelled through that mapper, so
only a result code crosses the boundary; and `error_result_to_message` yields,
for every code of the closed enumeration, non-empty null-terminated text with
no interior NUL byte. -/
theorem error_mapping_total :
    into_result_code_with_error (.ok ()) = .VOICEVOX_RESULT_OK ∧
    (∀ e : CApiError,
        into_result_code_with_error (.error e) ≠ .VOICEVOX_RESULT_OK) ∧
    into_result_code_with_error (.error (.RustApi .UncategorizedError)) =
      .VOICEVOX_RESULT_UNKNOWN_ERROR ∧
    (∀ {ι : Type} (t : VoicevoxInitializeOptions → Except CApiError ι)
        (g : ι → Except VoicevoxCoreError Unit)
        (o : VoicevoxInitializeOptions),
        ∃ r : Except CApiError Unit,
          voicevox_initialize t g o = into_result_code_with_error r) ∧
    (∀ c : VoicevoxResultCode,
        error_result_to_message c ≠ [] ∧
        (error_result_to_message c).getLast? = some 0 ∧
        ∀ b ∈ (error_result_to_message c).dropLast, b ≠ 0) := by
  refine ⟨rfl, ?_, rfl, ?_, ?_⟩
  · intro e
    cases e with
    | RustApi e => cases e <;> simp [into_result_code_with_error]
    | InvalidUtf8Input => simp [into_result_code_with_error]
    | InvalidAudioQuery => simp [into_result_code_with_error]
  · intro ι t g o
    exact ⟨_, rfl⟩
  · intro c
    cases c <;> refine ⟨by decide, by decide, ?_⟩ <;> decide

/-- C9: two distinct release disciplines — `voicevox_audio_query_json_free`
performs a plain deallocation of the malloc-backed C string and never reads or
modifies the registry table or the leaked allocations, whereas
`voicevox_wav_free` (and the three `*_data_free` functions, which perform the
identical registry reclamation) removes the address entry from the registry
table, leaves the C-string heap alone, and is fatal on an address that is not
in the table — so the two operations are not interchangeable. -/
theorem release_disciplines {α : Type} :
    (∀ (addr : Nat) (s : CApiState α),
        (voicevox_audio_query_json_free addr s).table = s.table ∧
        (voicevox_audio_query_json_free addr s).mem = s.mem) ∧
    (∀ (addr : Nat) (s s' : CApiState α),
        voicevox_wav_free addr s = some s' →
        s'.table = eraseKey addr s.table ∧ s'.cstrHeap = s.cstrHeap) ∧
    (∀ (addr : Nat) (s : CApiState α),
        lookupKey addr s.table = none → voicevox_wav_free addr s = none) ∧
    (∀ (addr : Nat) (s : CApiState α),
        voicevox_predict_duration_data_free addr s =
            voicevox_wav_free addr s ∧
          voicevox_predict_intonation_data_free addr s =
            voicevox_wav_free addr s ∧
          voicevox_decode_data_free addr s = voicevox_wav_free addr s) := by
  refine ⟨?_, ?_, ?_, ?_⟩
  · intro addr s
    exact ⟨rfl, rfl⟩
  · intro addr s s' h
    unfold voicevox_wav_free restore_vec at h
    cases ht : lookupKey addr s.table with
    | none => rw [ht] at h; simp at h
    | some size =>
      rw [ht] at h
      cases hm : lookupKey addr s.mem with
      | none => rw [hm] at h; simp at h
      | some v =>
        rw [hm] at h
        simp at h
        subst h
        exact ⟨rfl, rfl⟩
  · intro addr s ht
    simp [voicevox_wav_free, restore_vec, ht]
  · intro addr s
    exact ⟨rfl, rfl, rfl⟩

/-- C9 witness: at a concrete state holding one registered wav buffer and one
audio-query string, each free function at concrete addresses. -/
theorem release_disciplines_witness :
    ((voicevox_audio_query_json_free 300
        (⟨[(100, 2)], [(100, ⟨[7, 8], 2⟩)], [(300, [65, 0])]⟩ :
          CApiState Nat)).table = [(100, 2)] ∧
      (voicevox_audio_query_json_free 300
        (⟨[(100, 2)], [(100, ⟨[7, 8], 2⟩)], [(300, [65, 0])]⟩ :
          CApiState Nat)).mem = [(100, ⟨[7, 8], 2⟩)]) ∧
      ((⟨[], [], [(300, [65, 0])]⟩ : CApiState Nat).table =
          eraseKey 100 [(100, 2)] ∧
        (⟨[], [], [(300, [65, 0])]⟩ : CApiState Nat).cstrHeap =
          [(300, [65, 0])]) ∧
      voicevox_wav_free 300
        (⟨[(100, 2)], [(100, ⟨[7, 8], 2⟩)], [(300, [65, 0])]⟩ :
          CApiState Nat) = none := by
  refine ⟨?_, ?_, ?_⟩
  · exact (release_disciplines (α := Nat)).1 300
      ⟨[(100, 2)], [(100, ⟨[7, 8], 2⟩)], [(300, [65, 0])]⟩
  · exact (release_disciplines (α := Nat)).2.1 100
      ⟨[(100, 2)], [(100, ⟨[7, 8], 2⟩)], [(300, [65, 0])]⟩
      ⟨[], [], [(300, [65, 0])]⟩ (by decide)
  · exact (release_disciplines (α := Nat)).2.2.1 300
      ⟨[(100, 2)], [(100, ⟨[7, 8], 2⟩)], [(300, [65, 0])]⟩ (by decide)

/-- C10: error atomicity at the boundary — for each of the six fallible entry
points with output parameters, a call that returns (rather than aborting) with
a non-success result code writes no caller-supplied output slot (the output is
`none`) and adds no entry to the buffer registry table. -/
theorem error_atomicity {α β φ : Type} :
    (∀ (f : List Int → Nat → Except VoicevoxCoreError (RVec α))
        (sz addr : Nat) (s s' : CApiState α) (pv : List Int) (sp : Nat)
        (c : VoicevoxResultCode) (out : Option (Nat × Nat)),
        voicevox_predict_duration f sz addr s pv sp = some (c, s', out) →
        c ≠ .VOICEVOX_RESULT_OK → out = none ∧ s'.table = s.table) ∧
    (∀ (f : Nat → List Int → List Int → List Int → List Int → List Int →
          List Int → Nat → Except VoicevoxCoreError (RVec α))
        (sz addr : Nat) (s s' : CApiState α) (n : Nat)
        (v₁ v₂ v₃ v₄ v₅ v₆ : List Int) (sp : Nat)
        (c : VoicevoxResultCode) (out : Option (Nat × Nat)),
        voicevox_predict_intonation f sz addr s n v₁ v₂ v₃ v₄ v₅ v₆ sp =
          some (c, s', out) →
        c ≠ .VOICEVOX_RESULT_OK → out = none ∧ s'.table = s.table) ∧
    (∀ (f : Nat → Nat → List φ → List φ → Nat →
          Except VoicevoxCoreError (RVec α))
        (sz addr : Nat) (s s' : CApiState α) (n m : Nat)
        (f0 pv : List φ) (sp : Nat)
        (c : VoicevoxResultCode) (out : Option (Nat × Nat)),
        voicevox_decode f sz addr s n m f0 pv sp = some (c, s', out) →
        c ≠ .VOICEVOX_RESULT_OK → out = none ∧ s'.table = s.table) ∧
    (∀ (f : List Nat → Nat → VoicevoxAudioQueryOptions →
          Except VoicevoxCoreError (List Nat))
        (caddr : Nat) (s s' : CApiState α) (text : List Nat) (sp : Nat)
        (o : VoicevoxAudioQueryOptions)
        (c : VoicevoxResultCode) (out : Option Nat),
        voicevox_audio_query f caddr s text sp o = (c, s', out) →
        c ≠ .VOICEVOX_RESULT_OK → out = none ∧ s'.table = s.table) ∧
    (∀ (g : List Nat → Option β)
        (f : β → Nat → VoicevoxSynthesisOptions →
          Except VoicevoxCoreError (RVec α))
        (sz waddr : Nat) (s s' : CApiState α) (json : List Nat) (sp : Nat)
        (o : VoicevoxSynthesisOptions)
        (c : VoicevoxResultCode) (out : Option (Nat × Nat)),
        voicevox_synthesis g f sz waddr s json sp o = some (c, s', out) →
        c ≠ .VOICEVOX_RESULT_OK → out = none ∧ s'.table = s.table) ∧
    (∀ (f : List Nat → Nat → VoicevoxTtsOptions →
          Except VoicevoxCoreError (RVec α))
        (sz waddr : Nat) (s s' : CApiState α) (text : List Nat) (sp : Nat)
        (o : VoicevoxTtsOptions)
        (c : VoicevoxResultCode) (out : Option (Nat × Nat)),
        voicevox_tts f sz waddr s text sp o = some (c, s', out) →
        c ≠ .VOICEVOX_RESULT_OK → out = none ∧ s'.table = s.table) := by
  refine ⟨?_, ?_, ?_, ?_, ?_, ?_⟩
  · intro f sz addr s s' pv sp c out h hc
    unfold voicevox_predict_duration at h
    split at h
    · simp at h
      exact ⟨h.2.2.symm, by rw [← h.2.1]⟩
    · split at h
      · simp at h
      · simp at h
        exact absurd h.1.symm hc
  · intro f sz addr s s' n v₁ v₂ v₃ v₄ v₅ v₆ sp c out h hc
    unfold voicevox_predict_intonation at h
    split at h
    · simp at h
      exact ⟨h.2.2.symm, by rw [← h.2.1]⟩
    · split at h
      · simp at h
      · simp at h
        exact absurd h.1.symm hc
  · intro f sz addr s s' n m f0 pv sp c out h hc
    unfold voicevox_decode at h
    split at h
    · simp at h
      exact ⟨h.2.2.symm, by rw [← h.2.1]⟩
    · split at h
      · simp at h
      · simp at h
        exact absurd h.1.symm hc
  · intro f caddr s s' text sp o c out h hc
    unfold voicevox_audio_query at h
    split at h
    · simp at h
      exact ⟨h.2.2.symm, by rw [← h.2.1]⟩
    · split at h
      · simp at h
        exact ⟨h.2.2.symm, by rw [← h.2.1]⟩
      · simp at h
        exact absurd h.1.symm hc
  · intro g f sz waddr s s' json sp o c out h hc
    unfold voicevox_synthesis at h
    split at h
    · split at h
      · simp at h
        exact ⟨h.2.2.symm, by rw [← h.2.1]⟩
      · split at h
        · simp at h
          exact ⟨h.2.2.symm, by rw [← h.2.1]⟩
        · split at h
          · simp at h
          · simp at h
            exact absurd h.1.symm hc
    · simp at h
      exact ⟨h.2.2.symm, by rw [← h.2.1]⟩
  · intro f sz waddr s s' text sp o c out h hc
    unfold voicevox_tts at h
    split at h
    · simp at h
      exact ⟨h.2.2.symm, by rw [← h.2.1]⟩
    · split at h
      · simp at h
        exact ⟨h.2.2.symm, by rw [← h.2.1]⟩
      · split at h
        · simp at h
        · simp at h
          exact absurd h.1.symm hc

/-- C10 witness: a failing engine operation at `voicevox_tts` with concrete
arguments writes no output slot and leaves the registry table unchanged. -/
theorem error_atomicity_witness :
    voicevox_tts (fun _ _ _ => .error VoicevoxCoreError.UncategorizedError)
        1 100 (⟨[], [], []⟩ : CApiState Nat) [65] 0 ⟨false, true⟩ =
      some (.VOICEVOX_RESULT_UNKNOWN_ERROR, ⟨[], [], []⟩, none) ∧
      .VOICEVOX_RESULT_UNKNOWN_ERROR ≠ VoicevoxResultCode.VOICEVOX_RESULT_OK ∧
      (none : Option (Nat × Nat)) = none ∧
      (⟨[], [], []⟩ : CApiState Nat).table = (⟨[], [], []⟩ : CApiState Nat).table := by
  have h : voicevox_tts
      (fun _ _ _ => .error VoicevoxCoreError.UncategorizedError)
      1 100 (⟨[], [], []⟩ : CApiState Nat) [65] 0 ⟨false, true⟩ =
      some (.VOICEVOX_RESULT_UNKNOWN_ERROR, ⟨[], [], []⟩, none) := by
    decide
  have hc : VoicevoxResultCode.VOICEVOX_RESULT_UNKNOWN_ERROR ≠
      VoicevoxResultCode.VOICEVOX_RESULT_OK := by decide
  have hp := (error_atomicity (α := Nat) (β := Nat) (φ := Nat)).2.2.2.2.2
    (fun _ _ _ => .error VoicevoxCoreError.UncategorizedError)
    1 100 ⟨[], [], []⟩ ⟨[], [], []⟩ [65] 0 ⟨false, true⟩
    .VOICEVOX_RESULT_UNKNOWN_ERROR none h hc
  exact ⟨h, hc, hp.1, hp.2⟩

/-- C8 counterexample: the claim that registration into the registry table
happens while the engine guard is still held is false on the code.  In the
lock-event traces of successful `voicevox_tts` and `voicevox_predict_duration`
calls, the `registryInsert` happens at a point where the engine guard is no
longer held: the guard returned by `lock_internal()` is a temporary of the
engine-call statement and Rust drops it when that statement finishes, before
`leak_vec_and_store_length` runs. -/
theorem register_not_under_engine_guard :
    insertsWhileEngineHeld (voicevox_tts_trace true true) = false ∧
      insertsWhileEngineHeld (voicevox_predict_duration_trace true) = false := by
  constructor <;> decide

/-- C8 (amended): in every entry point that both invokes the engine and
registers a result buffer, the registration happens after the engine guard has
been released, so the registry lock and the engine guard are never held
simultaneously; in particular no `registryInsert` occurs while the engine
guard is held, the engine guard is never acquired while the registry lock is
held (never the reverse order), and every engine-guard acquisition precedes
every registry-lock acquisition. -/
theorem lock_regime :
    ∀ a b c : Bool,
      (insertsWhileEngineHeld (voicevox_predict_duration_trace a) = false ∧
        acquiresEngineWhileRegistryHeld (voicevox_predict_duration_trace a) =
          false ∧
        engineAcquiredFirst (voicevox_predict_duration_trace a) = true) ∧
      (insertsWhileEngineHeld (voicevox_predict_intonation_trace a) = false ∧
        acquiresEngineWhileRegistryHeld (voicevox_predict_intonation_trace a) =
          false ∧
        engineAcquiredFirst (voicevox_predict_intonation_trace a) = true) ∧
      (insertsWhileEngineHeld (voicevox_decode_trace a) = false ∧
        acquiresEngineWhileRegistryHeld (voicevox_decode_trace a) = false ∧
        engineAcquiredFirst (voicevox_decode_trace a) = true) ∧
      (insertsWhileEngineHeld (voicevox_synthesis_trace a b c) = false ∧
        acquiresEngineWhileRegistryHeld (voicevox_synthesis_trace a b c) =
          false ∧
        engineAcquiredFirst (voicevox_synthesis_trace a b c) = true) ∧
      (insertsWhileEngineHeld (voicevox_tts_trace a b) = false ∧
        acquiresEngineWhileRegistryHeld (voicevox_tts_trace a b) = false ∧
        engineAcquiredFirst (voicevox_tts_trace a b) = true) := by
  decide

/-- C7 witness: the mapping and the message lookup at concrete values. -/
theorem error_mapping_total_witness :
    into_result_code_with_error (.error .InvalidUtf8Input) ≠
        .VOICEVOX_RESULT_OK ∧
      error_result_to_message .VOICEVOX_RESULT_UNKNOWN_ERROR ≠ [] ∧
      (error_result_to_message .VOICEVOX_RESULT_UNKNOWN_ERROR).getLast? =
        some 0 :=
  ⟨error_mapping_total.2.1 .InvalidUtf8Input,
    (error_mapping_total.2.2.2.2 .VOICEVOX_RESULT_UNKNOWN_ERROR).1,
    (error_mapping_total.2.2.2.2 .VOICEVOX_RESULT_UNKNOWN_ERROR).2.1⟩
